import Mathlib

/-!
# A-MINT / HARVEY backend — verification of the session-scoped tool-orchestration engine

Shallow embedding of the conversation engine, tool dispatcher, session store and
reaper of the HARVEY backend (TypeScript sources: `chatController`,
`geminiService`, `toolOrchestrationService`, `fileManager`).

External collaborators (the generative model, the analysis and transformation
HTTP services, the YAML validator over the file system) are modelled as
environment records of functions, as the spec treats them: request/response
oracles.  Thrown JavaScript exceptions are modelled as `Except.error`;
ad hoc `{error: true, message}` / `{success: true, ...}` result objects are
modelled by the `ToolReply` record with optional fields.  JavaScript string
truthiness (`!x` true for `undefined` and `""`) is modelled by `falsyStr`.
-/

namespace Harvey

/-- A file attached to a session or produced by a transformation
(`SessionFile` of `chat.types`; the redundant `fileId` alias and the
`uploadedAt` timestamp are omitted, they are never consulted by the
verified operations). -/
structure SessionFile where
  id : String
  originalName : String
  filename : String
  path : String
  size : Nat
  status : String
deriving DecidableEq, Repr

/-- The per-session pricing-context override
(`session.pricingContext` in `chatController`). -/
structure PricingContext where
  content : String
  fileName : String
  fileId : String
deriving DecidableEq, Repr

/-- The arguments object of a tool invocation, after the destructuring the
handlers perform (`const { pricingFileId } = args` and so on).  A field the
model did not supply is `none`. -/
structure ToolArgs where
  pricingFileId : Option String := none
  operation : Option String := none
  solver : Option String := none
  jobId : Option String := none
  taskId : Option String := none
  url : Option String := none
  topic : Option String := none
deriving DecidableEq, Repr

/-- JavaScript falsiness of an optional string argument: `!x` is true exactly
when the field is absent (`undefined`) or the empty string. -/
def falsyStr : Option String → Bool
  | none => true
  | some s => s == ""

/-- A structured tool-invocation request from the model
(`FunctionCall` of `chat.types`). -/
structure FunctionCall where
  name : String
  arguments : ToolArgs
deriving DecidableEq, Repr

/-- The ad hoc result object a tool handler returns.  `error := true` objects
are the `{error: true, message}` failures; `error := false` objects are the
`{success: true, ...}` results, whose extra fields are kept in the optional
components (absent fields are `none`). -/
structure ToolReply where
  error : Bool
  message : String
  fileName : Option String := none
  fileSource : Option String := none
  payload : Option String := none
  statusData : Option String := none
  savedFileId : Option String := none
  contextAutoUpdated : Option Bool := none
  saveError : Option String := none
  adviceTopic : Option String := none
deriving DecidableEq, Repr

/-- Result of polling the transformation collaborator
(`TransformationResult` of `transformationAPI`). -/
structure TransformationResult where
  status : String
  yamlContent : Option String
deriving DecidableEq, Repr

/-- The external collaborators of `ToolOrchestrationService`, as oracles:
YAML validation over the file system (`fileManager.validateYamlFile`),
the analysis API (`getSummary`, `startAnalysisJob`, `getJobStatus`),
the transformation API (`startTransformation`, `getTransformationStatus`,
with `transformationAvailable` false when the client is not configured),
and the pool of completed transformation outputs on disk
(`fileManager.getTransformationFiles`).  A thrown exception is an
`Except.error` carrying the exception's message.  The optional
`filters`/`objective`/`jobSpecificPayload` arguments of `startAnalysisJob`
are absorbed into the oracle, they do not affect control flow. -/
structure OrchestrationEnv where
  validate : String → Except String Unit
  getSummary : String → Except String String
  startAnalysisJob : String → String → String → Except String String
  getJobStatus : String → Except String String
  transformationAvailable : Bool
  startTransformation : String → Except String String
  getTransformationStatus : String → Except String TransformationResult
  transFiles : List SessionFile

/-- Mutable state of `ToolOrchestrationService` and its file manager:
the `taskUrlMap` of original URLs, the uploads directory (file name to
content), a counter supplying fresh uuids, and the pricing context of the
module-level `geminiService` singleton that the transformation-completion
path mutates. -/
structure OrchState where
  taskUrlMap : List (String × String)
  uploads : List (String × String)
  nextUuid : Nat
  globalPricing : Option (String × String)
deriving DecidableEq, Repr

/-- `uuidv4()` modelled as a fresh name drawn from the state's counter. -/
def freshUuid (n : Nat) : String := "uuid-" ++ toString n

/-! ### Executable string primitives

JavaScript's `startsWith`, `endsWith`, `includes`, `split` and
`toLowerCase` modelled as structurally recursive functions over the
character list of a string, so that concrete instances evaluate inside the
kernel. -/

/-- Whether the second character list is a prefix of the first. -/
def charsStartWith : List Char → List Char → Bool
  | _, [] => true
  | [], _ :: _ => false
  | c :: cs, d :: ds => c == d && charsStartWith cs ds

/-- Whether the second character list occurs inside the first (JavaScript
`String.prototype.includes`). -/
def charsContain : List Char → List Char → Bool
  | [], needle => needle.isEmpty
  | c :: t, needle => charsStartWith (c :: t) needle || charsContain t needle

/-- Split a character list on a separator character (JavaScript
`split(sep)` for a one-character separator). -/
def splitOnChar (sep : Char) : List Char → List (List Char)
  | [] => [[]]
  | c :: cs =>
    match splitOnChar sep cs with
    | [] => [[]]
    | h :: t => if c == sep then [] :: h :: t else (c :: h) :: t

/-- Join character lists with a separator character (JavaScript
`join(sep)`). -/
def joinWithChar (sep : Char) : List (List Char) → List Char
  | [] => []
  | [l] => l
  | l :: ls => l ++ sep :: joinWithChar sep ls

/-- JavaScript `toLowerCase` (ASCII letters, which is all the compared
indicator and extension strings contain). -/
def strToLower (s : String) : String := ⟨s.data.map Char.toLower⟩

/-- JavaScript `startsWith`. -/
def strStartsWith (s p : String) : Bool := charsStartWith s.data p.data

/-- JavaScript `endsWith`. -/
def strEndsWith (s p : String) : Bool := charsStartWith s.data.reverse p.data.reverse

/-- JavaScript `includes`. -/
def strContainsSub (s p : String) : Bool := charsContain s.data p.data

/-- `fs.writeFileSync`: overwrite the entry at the name if present,
otherwise append it. -/
def writeFile (uploads : List (String × String)) (nm content : String) :
    List (String × String) :=
  if uploads.any (fun p => p.1 == nm) then
    uploads.map (fun p => if p.1 == nm then (nm, content) else p)
  else uploads ++ [(nm, content)]

/-- `new URL(u).hostname`, modelled for the WHATWG URL constructor on the
http/https URLs this service receives: a string without a scheme (such as the
`transformation-<taskId>` fallback) throws `Invalid URL`. -/
def parseUrlHostname (url : String) : Except String String :=
  if strStartsWith url "http://" then
    .ok ⟨(url.data.drop 7).takeWhile (fun c => !(c == '/'))⟩
  else if strStartsWith url "https://" then
    .ok ⟨(url.data.drop 8).takeWhile (fun c => !(c == '/'))⟩
  else .error ("Invalid URL: " ++ url)

/-- `fileManager.saveTransformationResult`: draws a fresh uuid, writes
`transformation_<taskId>_<uuid>.yaml` to the uploads directory, and only
then derives the display name from `new URL(originalUrl).hostname` — so when
the URL does not parse the write has already happened and the exception
carries no rollback. -/
def saveTransformationResult (st : OrchState) (taskId yamlContent originalUrl : String) :
    OrchState × Except String SessionFile :=
  let fileId := freshUuid st.nextUuid
  let fileName := "transformation_" ++ taskId ++ "_" ++ fileId ++ ".yaml"
  let filePath := "uploads/" ++ fileName
  let st' := { st with uploads := writeFile st.uploads fileName yamlContent,
                       nextUuid := st.nextUuid + 1 }
  match parseUrlHostname originalUrl with
  | .error e => (st', .error e)
  | .ok host =>
      (st', .ok { id := fileId,
                  originalName := "pricing_from_" ++ host ++ ".yaml",
                  filename := fileName,
                  path := filePath,
                  size := yamlContent.length,
                  status := "uploaded" })

/-- `Map.get` over the session's files (keys are file ids). -/
def findSessionFile (files : List SessionFile) (fid : String) : Option SessionFile :=
  files.find? (fun f => f.id == fid)

/-- Association-list lookup (for `taskUrlMap`). -/
def lookupKey (m : List (String × String)) (k : String) : Option String :=
  (m.find? (fun p => p.1 == k)).map Prod.snd

/-- Association-list delete (for `taskUrlMap.delete`). -/
def eraseKey (m : List (String × String)) (k : String) : List (String × String) :=
  m.filter (fun p => !(p.1 == k))

/-- `handleGetPricingSummary`: validate the required argument, resolve the
file id first against the session's files, then against the transformation
pool, then validate the YAML and call the analysis collaborator; every
collaborator exception becomes an `{error: true}` reply. -/
def handleGetPricingSummary (env : OrchestrationEnv) (sessionFiles : List SessionFile)
    (args : ToolArgs) : ToolReply :=
  if falsyStr args.pricingFileId then
    { error := true, message := "Missing required parameter: pricingFileId" }
  else
    let fid := args.pricingFileId.getD ""
    let inSession := findSessionFile sessionFiles fid
    let resolved := match inSession with
      | some f => some f
      | none => findSessionFile env.transFiles fid
    match resolved with
    | none =>
        { error := true,
          message := "File with ID " ++ fid ++ " not found in current session or transformation files. Please upload a pricing YAML file or complete a transformation first." }
    | some f =>
        match env.validate f.path with
        | .error e => { error := true, message := "Invalid YAML file: " ++ e }
        | .ok _ =>
            match env.getSummary f.path with
            | .ok summary =>
                { error := false,
                  message := "Pricing summary generated successfully",
                  fileName := some f.originalName,
                  fileSource := some (if inSession.isSome then "session" else "transformation"),
                  payload := some summary }
            | .error e =>
                { error := true, message := "Failed to get pricing summary: " ++ e }

/-- `handleStartPricingAnalysisJob`: combined required-argument check, the
same two-stage file resolution, operation whitelist, then the collaborator
call with exceptions converted to failures. -/
def handleStartPricingAnalysisJob (env : OrchestrationEnv) (sessionFiles : List SessionFile)
    (args : ToolArgs) : ToolReply :=
  if falsyStr args.pricingFileId || falsyStr args.operation || falsyStr args.solver then
    { error := true,
      message := "Missing required parameters: pricingFileId, operation, and solver are required" }
  else
    let fid := args.pricingFileId.getD ""
    let op := args.operation.getD ""
    let solver := args.solver.getD ""
    let inSession := findSessionFile sessionFiles fid
    let resolved := match inSession with
      | some f => some f
      | none => findSessionFile env.transFiles fid
    match resolved with
    | none =>
        { error := true,
          message := "File with ID " ++ fid ++ " not found in current session or transformation files. Please upload a pricing YAML file or complete a transformation first." }
    | some f =>
        if !(["validate", "optimal", "subscriptions", "filter"].contains op) then
          { error := true,
            message := "Invalid operation type. Must be one of: validate, optimal, subscriptions, filter" }
        else
          match env.startAnalysisJob f.path op solver with
          | .ok jobId =>
              { error := false,
                message := "Analysis job started successfully. Job ID: " ++ jobId,
                fileName := some f.originalName,
                fileSource := some (if inSession.isSome then "session" else "transformation"),
                payload := some jobId }
          | .error e =>
              { error := true, message := "Failed to start analysis job: " ++ e }

/-- `handleGetPricingAnalysisJobStatus`: pure pass-through to the analysis
collaborator, exceptions converted to failures; touches no state and
persists nothing. -/
def handleGetPricingAnalysisJobStatus (env : OrchestrationEnv) (args : ToolArgs) : ToolReply :=
  if falsyStr args.jobId then
    { error := true, message := "Missing required parameter: jobId" }
  else
    let jid := args.jobId.getD ""
    match env.getJobStatus jid with
    | .ok status =>
        { error := false, message := "Job status retrieved for " ++ jid,
          payload := some status }
    | .error e => { error := true, message := "Failed to get job status: " ++ e }

/-- `handleInitiatePricingPageTransformation`: argument check, availability
check, URL validation, then the collaborator call; on success the original
URL is remembered in `taskUrlMap` for the completion path. -/
def handleInitiatePricingPageTransformation (env : OrchestrationEnv) (st : OrchState)
    (args : ToolArgs) : OrchState × ToolReply :=
  if falsyStr args.url then
    (st, { error := true, message := "Missing required parameter: url" })
  else if !env.transformationAvailable then
    (st, { error := true,
           message := "Transformation service is not available. Please contact the administrator." })
  else
    let url := args.url.getD ""
    match parseUrlHostname url with
    | .error _ =>
        (st, { error := true,
               message := "Invalid URL format. Please provide a valid HTTP/HTTPS URL." })
    | .ok _ =>
        match env.startTransformation url with
        | .ok taskId =>
            ({ st with taskUrlMap := st.taskUrlMap ++ [(taskId, url)] },
             { error := false,
               message := "Transformation started for " ++ url ++ ". Task ID: " ++ taskId ++ ". This process may take a few minutes." })
        | .error e =>
            (st, { error := true, message := "Failed to start transformation: " ++ e })

/-- `handleGetTransformationTaskStatus`: polls the transformation
collaborator; when the task is `COMPLETED` with YAML content it saves the
result as a fresh file (every poll anew), on save success erases the
remembered URL and sets the singleton `geminiService` pricing context, on
save failure keeps going and reports `saveError`.  The save falls back to
`transformation-<taskId>` as the original URL when the map holds no entry. -/
def handleGetTransformationTaskStatus (env : OrchestrationEnv) (st : OrchState)
    (args : ToolArgs) : OrchState × ToolReply :=
  if falsyStr args.taskId then
    (st, { error := true, message := "Missing required parameter: taskId" })
  else if !env.transformationAvailable then
    (st, { error := true, message := "Transformation service is not available." })
  else
    let tid := args.taskId.getD ""
    match env.getTransformationStatus tid with
    | .error e =>
        (st, { error := true, message := "Failed to get transformation status: " ++ e })
    | .ok tr =>
        if tr.status == "COMPLETED" && !((tr.yamlContent.getD "") == "") then
          let y := tr.yamlContent.getD ""
          let originalUrl := (lookupKey st.taskUrlMap tid).getD ("transformation-" ++ tid)
          match saveTransformationResult st tid y originalUrl with
          | (st1, .ok fileInfo) =>
              ({ st1 with taskUrlMap := eraseKey st1.taskUrlMap tid,
                          globalPricing := some (y, fileInfo.originalName) },
               { error := false,
                 message := "Transformation completed for " ++ tid ++ ". File saved and automatically set as pricing context for this conversation.",
                 statusData := some tr.status,
                 savedFileId := some fileInfo.id,
                 contextAutoUpdated := some true })
          | (st1, .error e) =>
              (st1,
               { error := false,
                 message := "Transformation completed for " ++ tid,
                 statusData := some tr.status,
                 saveError := some ("Failed to save file: " ++ e),
                 contextAutoUpdated := some false })
        else
          (st, { error := false,
                 message := if tr.status == "COMPLETED" then
                     "Transformation completed for " ++ tid
                   else "Transformation task status retrieved for " ++ tid,
                 statusData := some tr.status })

/-- `handleGetPricingStrategyAdvice`: the only handler that throws on a
missing required argument (`throw new Error('Topic is required ...')`)
instead of returning an `{error: true}` reply. -/
def handleGetPricingStrategyAdvice (args : ToolArgs) : Except String ToolReply :=
  if falsyStr args.topic then
    .error "Topic is required for pricing strategy advice"
  else
    let t := args.topic.getD ""
    .ok { error := false,
          message := "Generating pricing strategy advice for topic: " ++ t ++ ". The AI will provide this directly.",
          adviceTopic := some t }

/-- `handleGetAvailableTransformationFiles`: lists the completed
transformation outputs on disk. -/
def handleGetAvailableTransformationFiles (env : OrchestrationEnv) : ToolReply :=
  { error := false,
    message := "Found " ++ toString env.transFiles.length ++ " transformation file(s) available for analysis" }

/-- `ToolOrchestrationService.handleToolCall`: dispatch by name over the
fixed table; the default branch throws `Unknown function call: <name>`, and
the surrounding catch rethrows (`throw error`), so exceptions pass through
unchanged. -/
def handleToolCall (env : OrchestrationEnv) (st : OrchState)
    (sessionFiles : List SessionFile) (call : FunctionCall) :
    OrchState × Except String ToolReply :=
  if call.name == "getPricingSummary" then
    (st, .ok (handleGetPricingSummary env sessionFiles call.arguments))
  else if call.name == "startPricingAnalysisJob" then
    (st, .ok (handleStartPricingAnalysisJob env sessionFiles call.arguments))
  else if call.name == "getPricingAnalysisJobStatus" then
    (st, .ok (handleGetPricingAnalysisJobStatus env call.arguments))
  else if call.name == "initiatePricingPageTransformation" then
    let (st', r) := handleInitiatePricingPageTransformation env st call.arguments
    (st', .ok r)
  else if call.name == "getTransformationTaskStatus" then
    let (st', r) := handleGetTransformationTaskStatus env st call.arguments
    (st', .ok r)
  else if call.name == "getPricingStrategyAdvice" then
    (st, handleGetPricingStrategyAdvice call.arguments)
  else if call.name == "getAvailableTransformationFiles" then
    (st, .ok (handleGetAvailableTransformationFiles env))
  else
    (st, .error ("Unknown function call: " ++ call.name))

/-! ## Conversation engine and session store (`chatController`, `geminiService`) -/

/-- Message roles (`'user' | 'model' | 'tool'`). -/
inductive Role where
  | user
  | model
  | tool
deriving DecidableEq, Repr

/-- One part of a message: free text, a tool-call request, or a tool-call
result (`parts` entries of `ChatMessage`). -/
inductive MessagePart where
  | text (s : String)
  | functionCall (fc : FunctionCall)
  | functionResponse (name : String) (resultMessage : String)
deriving DecidableEq, Repr

/-- A message of the session log (`ChatMessage` of `chat.types`). -/
structure ChatMessage where
  role : Role
  parts : List MessagePart
deriving DecidableEq, Repr

/-- The per-conversation aggregate (`ChatSession`), with timestamps as
integer epoch milliseconds. -/
structure ChatSession where
  id : String
  createdAt : Int
  lastActivity : Int
  messages : List ChatMessage
  files : List SessionFile
  pricingContext : Option PricingContext
deriving DecidableEq, Repr

/-- The value `GeminiService.generateResponse` resolves with
(`GeminiChatResponse`): final text plus, when the first pass requested a
tool, the executed call; `functionCalls` is absent (`none`) otherwise. -/
structure GeminiChatResponse where
  content : String
  functionCalls : Option (List FunctionCall)
deriving DecidableEq, Repr

/-- Abstract outcome of one turn of the two-phase model protocol, as far as
the message log can observe it: either the first pass answered directly with
text, or it requested one tool call and after execution the second pass
produced the final text.  This abstracts the model collaborator and the tool
execution inside `generateResponse`, which only choose these strings. -/
inductive ModelTurn where
  | direct (text : String)
  | toolCall (fc : FunctionCall) (finalText : String)
deriving DecidableEq, Repr

/-- Shape of the `GeminiChatResponse` that `generateResponse` returns in each
branch (part_005 lines 398–448): the tool-call branch returns the second
pass's text together with the one executed call; the direct branch returns
text only and omits `functionCalls`. -/
def generateResponseResult : ModelTurn → GeminiChatResponse
  | ModelTurn.direct t => { content := t, functionCalls := none }
  | ModelTurn.toolCall fc finalText => { content := finalText, functionCalls := some [fc] }

/-- The user-message text, annotated with the upload reference note when the
request carried a just-uploaded file (`context.uploadedFile` with
original name and file id). -/
def buildUserMessageText (message : String) (uploadedCtx : Option (String × String)) : String :=
  match uploadedCtx with
  | some (nm, fid) =>
      message ++ "\n\n[Context: User has uploaded a file \"" ++ nm ++ "\" with ID \"" ++ fid
        ++ "\" that is available for pricing analysis.]"
  | none => message

/-- `ChatController.sendMessage` after the session lookup (part_008 lines
567–607): touch `lastActivity`, append the `user` message, call the model
collaborator, and append at most one `model` message holding the final text
part (when the content string is truthy) followed by the tool-call parts
(when a non-empty call array is present).  No `tool` message is ever
appended to the session log. -/
def sendMessageCore (session : ChatSession) (message : String)
    (uploadedCtx : Option (String × String)) (resp : GeminiChatResponse) (now : Int) :
    ChatSession :=
  let userMessage : ChatMessage := ⟨Role.user, [MessagePart.text (buildUserMessageText message uploadedCtx)]⟩
  let s1 := { session with lastActivity := now,
                           messages := session.messages ++ [userMessage] }
  if !(resp.content == "") || resp.functionCalls.isSome then
    let textParts := if !(resp.content == "") then [MessagePart.text resp.content] else []
    let fcParts := match resp.functionCalls with
      | some l => if l.length > 0 then l.map MessagePart.functionCall else []
      | none => []
    { s1 with messages := s1.messages ++ [⟨Role.model, textParts ++ fcParts⟩] }
  else s1

/-- One whole turn of `sendMessage`, with the model collaborator's behaviour
for this turn given abstractly. -/
def sendMessageTurn (session : ChatSession) (message : String)
    (uploadedCtx : Option (String × String)) (turn : ModelTurn) (now : Int) : ChatSession :=
  sendMessageCore session message uploadedCtx (generateResponseResult turn) now

/-- `ChatController.isPricingYamlFile`: the name must end in `.yaml`/`.yml`
and the first 50 lines, lowercased, must contain all three of the indicators
`version:`, `features:`, `plans:`.  Note `saasName` is not among the
indicators the code checks. -/
def isPricingYamlFile (originalName : String) (content : String) : Bool :=
  let fileExtension := strToLower originalName
  if !(strEndsWith fileExtension ".yaml" || strEndsWith fileExtension ".yml") then false
  else
    let firstLines : String := strToLower ⟨joinWithChar '\n' ((splitOnChar '\n' content.data).take 50)⟩
    let pricingIndicators := ["version:", "features:", "plans:"]
    (pricingIndicators.filter (fun ind => strContainsSub firstLines ind)).length ≥ 3

/-- An inbound multipart upload: the client-supplied name, the bytes, and the
size multer records. -/
structure UploadedFile where
  originalname : String
  content : String
  size : Nat
deriving DecidableEq, Repr

/-- The report of `ChatController.getPricingContextInfo` (part_008 lines
802–805): presence flag, file name (`|| null`, so an empty name reports
null), and content length (0 for falsy content). -/
structure PricingContextInfo where
  hasContext : Bool
  fileName : Option String
  contentLength : Nat
deriving DecidableEq, Repr

/-- `getPricingContextInfo`, derived from the session-specific context. -/
def getPricingContextInfo (session : ChatSession) : PricingContextInfo :=
  { hasContext := session.pricingContext.isSome,
    fileName := match session.pricingContext with
      | some c => if c.fileName == "" then none else some c.fileName
      | none => none,
    contentLength := match session.pricingContext with
      | some c => c.content.length
      | none => 0 }

/-- The file-processing loop body of the `chat` endpoint (part_008 lines
96–126): save the upload, attach it to the session, and when the pricing
heuristic fires set the session-specific `pricingContext` to the file's
content. -/
def chatAttachFile (session : ChatSession) (file : UploadedFile) (freshId : String)
    (now : Int) : ChatSession :=
  let sessionFile : SessionFile :=
    { id := freshId, originalName := file.originalname, filename := freshId,
      path := "uploads/" ++ freshId, size := file.size, status := "uploaded" }
  let s1 := { session with files := session.files ++ [sessionFile], lastActivity := now }
  if isPricingYamlFile file.originalname file.content then
    { s1 with pricingContext := some { content := file.content,
                                       fileName := file.originalname,
                                       fileId := freshId } }
  else s1

/-- The controller's shared mutable state: the session map and the pricing
context currently baked into the shared `GeminiService` instance's default
model configuration (`this.model`'s system preamble). -/
structure ControllerState where
  sessions : List (String × ChatSession)
  geminiDefault : Option (String × String)
deriving DecidableEq, Repr

/-- `this.sessions.get(sid)`. -/
def lookupSession (sessions : List (String × ChatSession)) (sid : String) :
    Option ChatSession :=
  (sessions.find? (fun p => p.1 == sid)).map Prod.snd

/-- `this.sessions.set(sid, s)` for a key already present: replace the value
stored at the key. -/
def setSession (sessions : List (String × ChatSession)) (sid : String) (s : ChatSession) :
    List (String × ChatSession) :=
  sessions.map (fun p => if p.1 == sid then (sid, s) else p)

/-- The grounding document a session's model calls use
(`generateResponse` lines 377–387 together with `getSystemPrompt`): when the
session carries a `pricingContext` a per-session model embedding that
document is derived; otherwise the shared default model — whose preamble
holds whatever pricing document was last written into the shared service —
is used. -/
def effectiveGrounding (geminiDefault : Option (String × String)) :
    Option PricingContext → Option (String × String)
  | some ctx => some (ctx.content, ctx.fileName)
  | none => geminiDefault

/-- The grounding document session `sid`'s model calls would use under
controller state `st` (`none` when the session does not exist). -/
def sessionGrounding (st : ControllerState) (sid : String) :
    Option (Option (String × String)) :=
  (lookupSession st.sessions sid).map
    (fun s => effectiveGrounding st.geminiDefault s.pricingContext)

/-- `ChatController.uploadFile` (part_008 lines 225–307), after multer: look
the session up, attach the saved file, touch `lastActivity`, and when the
pricing heuristic fires call `this.geminiService.updatePricingContext` —
which rewrites the SHARED default model configuration, not the session's
`pricingContext` field. -/
def ctrlUploadFile (st : ControllerState) (sessionId : String) (file : UploadedFile)
    (freshId : String) (now : Int) : ControllerState × Except String String :=
  match lookupSession st.sessions sessionId with
  | none => (st, .error "Session not found")
  | some session =>
      let sessionFile : SessionFile :=
        { id := freshId, originalName := file.originalname, filename := freshId,
          path := "uploads/" ++ freshId, size := file.size, status := "uploaded" }
      let session' := { session with files := session.files ++ [sessionFile],
                                     lastActivity := now }
      let gemini' := if isPricingYamlFile file.originalname file.content then
          some (file.content, file.originalname)
        else st.geminiDefault
      ({ sessions := setSession st.sessions sessionId session',
         geminiDefault := gemini' },
       .ok "File uploaded successfully")

/-- `ChatController.updatePricingContext` (part_008 lines 700–757): validate
the `fileId` argument, look the session and the file up, read the file's
content (the file system as an oracle from path to content), and replace the
SESSION's `pricingContext` atomically; the shared default model is not
touched. -/
def ctrlUpdatePricingContext (st : ControllerState) (sessionId : String)
    (fileId : Option String) (fsContent : String → Option String) (now : Int) :
    ControllerState × Except String String :=
  if falsyStr fileId then (st, .error "FileId is required")
  else
    match lookupSession st.sessions sessionId with
    | none => (st, .error "Session not found")
    | some session =>
        match findSessionFile session.files (fileId.getD "") with
        | none => (st, .error "File not found in the session")
        | some f =>
            match fsContent f.path with
            | none => (st, .error "File not found in the system")
            | some content =>
                let session' := { session with
                  pricingContext := some { content := content,
                                           fileName := f.originalName,
                                           fileId := f.id },
                  lastActivity := now }
                ({ st with sessions := setSession st.sessions sessionId session' },
                 .ok ("Pricing context updated with file: " ++ f.originalName))

/-- `ChatController.clearPricingContext` (part_008 lines 762–788): clear the
session-specific context. -/
def ctrlClearPricingContext (st : ControllerState) (sessionId : String) (now : Int) :
    ControllerState × Except String String :=
  match lookupSession st.sessions sessionId with
  | none => (st, .error "Session not found")
  | some session =>
      ({ st with sessions := setSession st.sessions sessionId
                   { session with pricingContext := none, lastActivity := now } },
       .ok "Pricing context cleared successfully")

/-! ## Session reaper (`cleanupInactiveSessions`) -/

/-- The fixed inactivity threshold: 24 hours in milliseconds. -/
def inactivityThresholdMs : Int := 24 * 60 * 60 * 1000

/-- Whether the sweep judges a session inactive: strictly more than the
threshold has elapsed since `lastActivity`. -/
def sessionExpired (now : Int) (s : ChatSession) : Bool :=
  decide (now - s.lastActivity > inactivityThresholdMs)

/-- `ChatController.cleanupInactiveSessions` (part_008 lines 433–462): scan
the map, delete every file of each expired session, collect the expired ids,
then remove them from the map.  Returns the surviving entries and the paths
of the deleted files. -/
def cleanupInactiveSessions (now : Int) (sessions : List (String × ChatSession)) :
    List (String × ChatSession) × List String :=
  let expired := sessions.filter (fun p => sessionExpired now p.2)
  let deletedFiles := expired.flatMap (fun p => p.2.files.map (fun f => f.path))
  let sessionsToDelete := expired.map Prod.fst
  (sessions.filter (fun p => !(sessionsToDelete.contains p.1)), deletedFiles)

/-! ## Concrete fixtures for witnesses and counterexamples -/

/-- A concrete collaborator environment whose calls all succeed and whose
transformation poll reports a completed task. -/
def sampleEnv : OrchestrationEnv :=
  { validate := fun _ => .ok (),
    getSummary := fun p => .ok ("summary of " ++ p),
    startAnalysisJob := fun _ _ _ => .ok "job-1",
    getJobStatus := fun j => .ok ("status of " ++ j),
    transformationAvailable := true,
    startTransformation := fun _ => .ok "t1",
    getTransformationStatus := fun _ =>
      .ok { status := "COMPLETED", yamlContent := some "saasName: Example\nplans:\n" },
    transFiles := [] }

/-- A concrete orchestration state remembering the original URL of task
`t1`, with an empty uploads directory. -/
def sampleState : OrchState :=
  { taskUrlMap := [("t1", "https://example.com/pricing")],
    uploads := [], nextUuid := 0, globalPricing := none }

/-- A fresh session with no messages, files, or pricing context. -/
def emptySession : ChatSession :=
  { id := "S", createdAt := 0, lastActivity := 0, messages := [],
    files := [], pricingContext := none }

/-- Pricing YAML carrying the top-level markers `saasName`, `plans`,
`version` — but not `features` — from the spec's upload scenario. -/
def yamlSaasPlansVersion : String :=
  "saasName: TestSaaS\nplans:\n  basic:\n    price: 0\nversion: 2.1\n"

/-- Pricing YAML carrying `saasName` and all three indicators the code's
heuristic checks (`version:`, `features:`, `plans:`). -/
def yamlFullMarkers : String :=
  "saasName: TestSaaS\nversion: 2.1\nfeatures:\n  api:\n    type: DOMAIN\nplans:\n  basic:\n    price: 0\n"

/-- A concrete tool call of the catalogue, for message-log fixtures. -/
def sampleCall : FunctionCall :=
  { name := "getPricingSummary", arguments := { pricingFileId := some "f1" } }

/-! ## C2: unknown tool names -/

/-- C2 (counterexample): dispatching a tool call whose name is not in the
fixed table does not return a failure outcome — `handleToolCall` throws
(models `throw new Error`, rethrown by the surrounding catch), so the
exception propagates past the dispatcher boundary. -/
theorem handleToolCall_unknownName_throws_cex :
    (handleToolCall sampleEnv sampleState []
        { name := "summarizeStuff", arguments := {} }).2
      = Except.error "Unknown function call: summarizeStuff" := by
  rfl

/-- C2 (amended): for every request whose name is outside the dispatcher's
fixed seven-entry table, `handleToolCall` leaves the state unchanged and
throws an exception naming the unknown tool, which the surrounding catch
rethrows to the caller instead of converting it to a failure outcome. -/
theorem handleToolCall_unknownName (env : OrchestrationEnv) (st : OrchState)
    (files : List SessionFile) (call : FunctionCall)
    (h : call.name ∉ ["getPricingSummary", "startPricingAnalysisJob",
        "getPricingAnalysisJobStatus", "initiatePricingPageTransformation",
        "getTransformationTaskStatus", "getPricingStrategyAdvice",
        "getAvailableTransformationFiles"]) :
    handleToolCall env st files call
      = (st, Except.error ("Unknown function call: " ++ call.name)) := by
  simp only [List.mem_cons, List.not_mem_nil, or_false, not_or] at h
  obtain ⟨h1, h2, h3, h4, h5, h6, h7⟩ := h
  simp [handleToolCall, h1, h2, h3, h4, h5, h6, h7]

/-- Witness for `handleToolCall_unknownName` at a concrete unknown name. -/
theorem handleToolCall_unknownName_witness :
    handleToolCall sampleEnv sampleState []
        { name := "doesNotExist", arguments := {} }
      = (sampleState, Except.error ("Unknown function call: " ++ "doesNotExist")) :=
  handleToolCall_unknownName sampleEnv sampleState _ _ (by decide)

/-! ## C6: missing required arguments -/

/-- C6 (counterexample): the `getPricingStrategyAdvice` handler, invoked
without its required `topic` argument, raises an exception (which passes
through the dispatcher's rethrowing catch) instead of returning a failure
outcome naming the missing field. -/
theorem advice_missingTopic_throws_cex :
    (handleToolCall sampleEnv sampleState []
        { name := "getPricingStrategyAdvice", arguments := {} }).2
      = Except.error "Topic is required for pricing strategy advice" := by
  rfl

/-- C6 (amended): every handler except `getPricingStrategyAdvice` converts a
missing (absent or empty) required argument into an `{error: true}` failure
outcome whose message names the missing field; `getPricingStrategyAdvice`
instead throws `Topic is required for pricing strategy advice`. -/
theorem handlers_missingArgs (env : OrchestrationEnv) (files : List SessionFile)
    (st : OrchState) (args : ToolArgs) :
    (falsyStr args.pricingFileId = true →
        handleGetPricingSummary env files args
          = { error := true, message := "Missing required parameter: pricingFileId" })
    ∧ ((falsyStr args.pricingFileId = true ∨ falsyStr args.operation = true
          ∨ falsyStr args.solver = true) →
        handleStartPricingAnalysisJob env files args
          = { error := true,
              message := "Missing required parameters: pricingFileId, operation, and solver are required" })
    ∧ (falsyStr args.jobId = true →
        handleGetPricingAnalysisJobStatus env args
          = { error := true, message := "Missing required parameter: jobId" })
    ∧ (falsyStr args.url = true →
        handleInitiatePricingPageTransformation env st args
          = (st, { error := true, message := "Missing required parameter: url" }))
    ∧ (falsyStr args.taskId = true →
        handleGetTransformationTaskStatus env st args
          = (st, { error := true, message := "Missing required parameter: taskId" }))
    ∧ (falsyStr args.topic = true →
        handleGetPricingStrategyAdvice args
          = Except.error "Topic is required for pricing strategy advice") := by
  refine ⟨fun h => ?_, fun h => ?_, fun h => ?_, fun h => ?_, fun h => ?_, fun h => ?_⟩
  · simp [handleGetPricingSummary, h]
  · rcases h with h | h | h <;> simp [handleStartPricingAnalysisJob, h]
  · simp [handleGetPricingAnalysisJobStatus, h]
  · simp [handleInitiatePricingPageTransformation, h]
  · simp [handleGetTransformationTaskStatus, h]
  · simp [handleGetPricingStrategyAdvice, h]

/-- Witness for `handlers_missingArgs`: the all-absent arguments object. -/
theorem handlers_missingArgs_witness :
    handleGetPricingSummary sampleEnv [] {}
        = { error := true, message := "Missing required parameter: pricingFileId" }
    ∧ handleGetPricingStrategyAdvice {}
        = Except.error "Topic is required for pricing strategy advice" :=
  ⟨(handlers_missingArgs sampleEnv [] sampleState {}).1 (by decide),
   (handlers_missingArgs sampleEnv [] sampleState {}).2.2.2.2.2 (by decide)⟩

/-! ## Session-map lemmas -/

/-- Unfolding `lookupSession` over a cons cell. -/
theorem lookupSession_cons (q : String × ChatSession) (t : List (String × ChatSession))
    (x : String) :
    lookupSession (q :: t) x = if q.1 == x then some q.2 else lookupSession t x := by
  unfold lookupSession
  by_cases h : (q.1 == x) = true
  · have hf := @List.find?_cons_of_pos _ (fun r => r.1 == x) q t h
    rw [hf, if_pos h]
    rfl
  · have hf := @List.find?_cons_of_neg _ (fun r => r.1 == x) q t h
    rw [hf, if_neg h]

/-- Replacing the value at one key leaves lookups at other keys unchanged. -/
theorem lookupSession_setSession_ne (L : List (String × ChatSession)) (sid : String)
    (s' : ChatSession) (x : String) (h : x ≠ sid) :
    lookupSession (setSession L sid s') x = lookupSession L x := by
  induction L with
  | nil => rfl
  | cons q t ih =>
      have hcons : setSession (q :: t) sid s'
          = (if q.1 == sid then (sid, s') else q) :: setSession t sid s' := rfl
      rw [hcons, lookupSession_cons, lookupSession_cons, ih]
      by_cases hq : (q.1 == sid) = true
      · have hq' : q.1 = sid := by simpa [beq_iff_eq] using hq
        have hqx : (q.1 == x) = false := by
          simp only [beq_eq_false_iff_ne, ne_eq, hq']
          exact fun he => h he.symm
        have hsx : ((sid : String) == x) = false := by
          simp only [beq_eq_false_iff_ne, ne_eq]
          exact fun he => h he.symm
        rw [if_pos hq]
        simp [hqx, hsx]
      · rw [if_neg hq]

/-- Replacing the value at a key makes lookups at that key see the new value
exactly when the key was present. -/
theorem lookupSession_setSession_self (L : List (String × ChatSession)) (sid : String)
    (s' : ChatSession) :
    lookupSession (setSession L sid s') sid
      = (lookupSession L sid).map (fun _ => s') := by
  induction L with
  | nil => rfl
  | cons q t ih =>
      have hcons : setSession (q :: t) sid s'
          = (if q.1 == sid then (sid, s') else q) :: setSession t sid s' := rfl
      rw [hcons, lookupSession_cons, lookupSession_cons]
      by_cases hq : (q.1 == sid) = true
      · rw [if_pos hq]
        simp [hq]
      · rw [if_neg hq]
        simp [hq, ih]

/-! ## C10: the dedicated upload endpoint never touches the session context -/

/-- C10 (confirmed): `uploadFile` never mutates any session's
`pricingContext` — even when the pricing heuristic fires it only rewrites
the shared default model configuration — so `getPricingContextInfo`'s
`hasContext` is unchanged for every session by any upload through that
endpoint. -/
theorem uploadFile_preserves_pricingContext (st : ControllerState) (sid : String)
    (file : UploadedFile) (freshId : String) (now : Int) (anyId : String) :
    ((lookupSession (ctrlUploadFile st sid file freshId now).1.sessions anyId).map
        (fun s => s.pricingContext)
      = (lookupSession st.sessions anyId).map (fun s => s.pricingContext))
    ∧ ((lookupSession (ctrlUploadFile st sid file freshId now).1.sessions anyId).map
        (fun s => (getPricingContextInfo s).hasContext)
      = (lookupSession st.sessions anyId).map
        (fun s => (getPricingContextInfo s).hasContext)) := by
  unfold ctrlUploadFile
  cases hfind : lookupSession st.sessions sid with
  | none => simp
  | some session =>
      by_cases hx : anyId = sid
      · subst hx
        constructor <;>
          simp [lookupSession_setSession_self, hfind, getPricingContextInfo]
      · constructor <;> simp [lookupSession_setSession_ne _ _ _ _ hx]

/-! ## C3: session isolation of the grounding document -/

/-- Session `A` of the isolation fixture. -/
def sessA : ChatSession :=
  { id := "A", createdAt := 0, lastActivity := 0, messages := [],
    files := [], pricingContext := none }

/-- Session `B` of the isolation fixture, with no pricing context of its
own. -/
def sessB : ChatSession :=
  { id := "B", createdAt := 0, lastActivity := 0, messages := [],
    files := [], pricingContext := none }

/-- Two concurrently live sessions sharing one controller, no document
adopted anywhere yet. -/
def isolationState : ControllerState :=
  { sessions := [("A", sessA), ("B", sessB)], geminiDefault := none }

/-- The pricing upload of the isolation fixture. -/
def isolationUpload : UploadedFile :=
  { originalname := "pricing.yaml", content := yamlFullMarkers, size := 99 }

/-- C3 (counterexample): uploading a pricing document to session `A` through
the dedicated upload endpoint changes the grounding document of session `B`
— the heuristic path calls `updatePricingContext` on the SHARED
`GeminiService`, rewriting the default model configuration that every
session without its own `pricingContext` uses. -/
theorem upload_leaks_grounding_across_sessions_cex :
    sessionGrounding isolationState "B" = some none
    ∧ sessionGrounding (ctrlUploadFile isolationState "A" isolationUpload "f9" 5).1 "B"
        = some (some (yamlFullMarkers, "pricing.yaml")) := by
  constructor
  · rfl
  · rfl

/-- C3 (amended): setting a pricing context by the EXPLICIT per-session
update leaves every other session's grounding document unchanged and never
touches the shared default model configuration; but an upload through the
dedicated upload endpoint (and likewise a completed transformation) adopts
the document by mutating the shared `GeminiService` configuration, so a
concurrent session without its own `pricingContext` sees the other
session's document. -/
theorem updatePricingContext_isolated (st : ControllerState) (A : String)
    (fileId : Option String) (fsContent : String → Option String) (now : Int)
    (B : String) (hAB : B ≠ A) :
    sessionGrounding (ctrlUpdatePricingContext st A fileId fsContent now).1 B
        = sessionGrounding st B
    ∧ (ctrlUpdatePricingContext st A fileId fsContent now).1.geminiDefault
        = st.geminiDefault := by
  unfold ctrlUpdatePricingContext
  by_cases hfid : falsyStr fileId = true
  · simp [hfid]
  · rw [if_neg hfid]
    split
    · exact ⟨rfl, rfl⟩
    · split
      · exact ⟨rfl, rfl⟩
      · split
        · exact ⟨rfl, rfl⟩
        · refine ⟨?_, rfl⟩
          unfold sessionGrounding
          rw [lookupSession_setSession_ne _ _ _ _ hAB]

/-- Witness for `updatePricingContext_isolated`: the concrete two-session
fixture. -/
theorem updatePricingContext_isolated_witness :
    sessionGrounding (ctrlUpdatePricingContext isolationState "A" (some "f1")
        (fun _ => some "saasName: X") 5).1 "B"
      = sessionGrounding isolationState "B"
    ∧ (ctrlUpdatePricingContext isolationState "A" (some "f1")
        (fun _ => some "saasName: X") 5).1.geminiDefault
      = isolationState.geminiDefault :=
  updatePricingContext_isolated isolationState "A" (some "f1")
    (fun _ => some "saasName: X") 5 "B" (by decide)

/-! ## C7: set and clear pricing context -/

/-- C7 (confirmed): after a successful `updatePricingContext(S, D)` the
session's `getPricingContextInfo` reports `hasContext = true` and
`fileName = D.originalName`; after `clearPricingContext(S)` it reports
`hasContext = false`. -/
theorem setThenClearPricingContext_reports (st : ControllerState) (S : String)
    (D : SessionFile) (fsContent : String → Option String) (now now2 : Int)
    (session : ChatSession) (c : String)
    (hs : lookupSession st.sessions S = some session)
    (hD : findSessionFile session.files D.id = some D)
    (hid : D.id ≠ "")
    (hname : D.originalName ≠ "")
    (hc : fsContent D.path = some c) :
    ((lookupSession (ctrlUpdatePricingContext st S (some D.id) fsContent now).1.sessions S).map
        getPricingContextInfo
      = some { hasContext := true, fileName := some D.originalName,
               contentLength := c.length })
    ∧ ((lookupSession ((ctrlClearPricingContext
          (ctrlUpdatePricingContext st S (some D.id) fsContent now).1 S now2).1).sessions S).map
        (fun s => (getPricingContextInfo s).hasContext) = some false) := by
  have hfid : ¬ (falsyStr (some D.id) = true) := by
    simp [falsyStr, hid]
  have hD' : findSessionFile session.files ((some D.id).getD "") = some D := by
    simpa using hD
  have hlook : lookupSession
        (ctrlUpdatePricingContext st S (some D.id) fsContent now).1.sessions S
      = some { session with
          pricingContext := some { content := c, fileName := D.originalName,
                                   fileId := D.id },
          lastActivity := now } := by
    unfold ctrlUpdatePricingContext
    rw [if_neg hfid]
    simp only [hs, Option.getD_some, hD, hc]
    rw [lookupSession_setSession_self, hs]
    rfl
  constructor
  · rw [hlook]
    simp [getPricingContextInfo, hname]
  · unfold ctrlClearPricingContext
    rw [hlook]
    simp only []
    rw [lookupSession_setSession_self, hlook]
    simp [getPricingContextInfo]

/-- Witness for `setThenClearPricingContext_reports`: a one-file session. -/
theorem setThenClearPricingContext_witness :
    ((lookupSession (ctrlUpdatePricingContext
          { sessions := [("S", { emptySession with
              files := [{ id := "f1", originalName := "pricing.yaml", filename := "f1",
                          path := "uploads/f1", size := 10, status := "uploaded" }] })],
            geminiDefault := none }
          "S" (some "f1") (fun p => if p == "uploads/f1" then some "saasName: X" else none)
          7).1.sessions "S").map getPricingContextInfo
      = some { hasContext := true, fileName := some "pricing.yaml",
               contentLength := ("saasName: X" : String).length })
    ∧ ((lookupSession ((ctrlClearPricingContext
          (ctrlUpdatePricingContext
            { sessions := [("S", { emptySession with
                files := [{ id := "f1", originalName := "pricing.yaml", filename := "f1",
                            path := "uploads/f1", size := 10, status := "uploaded" }] })],
              geminiDefault := none }
            "S" (some "f1") (fun p => if p == "uploads/f1" then some "saasName: X" else none)
            7).1 "S" 8).1).sessions "S").map
        (fun s => (getPricingContextInfo s).hasContext) = some false) :=
  setThenClearPricingContext_reports _ "S"
    { id := "f1", originalName := "pricing.yaml", filename := "f1",
      path := "uploads/f1", size := 10, status := "uploaded" }
    _ 7 8 _ "saasName: X" (by rfl) (by rfl) (by decide) (by decide) (by rfl)

/-! ## C5: the pricing-document heuristic and the upload scenario -/

/-- C5 (counterexample): a file named `pricing.yaml` whose content carries
the top-level markers `saasName`, `plans` and `version` does NOT make the
heuristic fire — the code's indicator set is `version:`, `features:`,
`plans:` and requires all three, and `saasName` is not consulted; attaching
such a file through the chat endpoint leaves the session without a pricing
context. -/
theorem pricingHeuristic_saasName_markers_cex :
    isPricingYamlFile "pricing.yaml" yamlSaasPlansVersion = false
    ∧ (getPricingContextInfo (chatAttachFile emptySession
          { originalname := "pricing.yaml", content := yamlSaasPlansVersion, size := 57 }
          "f1" 0)).hasContext = false := by
  constructor
  · decide
  · decide

/-- C5 (amended): uploading through the chat endpoint a file on which the
heuristic fires — name ending in `.yaml`/`.yml` and first 50 lines
containing all of `version:`, `features:`, `plans:` — sets the session's
pricing context, after which `getPricingContextInfo` reports
`hasContext = true` and the file's name. -/
theorem chatUpload_heuristic_setsContext (session : ChatSession) (file : UploadedFile)
    (freshId : String) (now : Int)
    (hfire : isPricingYamlFile file.originalname file.content = true)
    (hname : file.originalname ≠ "") :
    getPricingContextInfo (chatAttachFile session file freshId now)
      = { hasContext := true, fileName := some file.originalname,
          contentLength := file.content.length } := by
  unfold chatAttachFile
  rw [if_pos hfire]
  simp [getPricingContextInfo, hname]

/-- Witness for `chatUpload_heuristic_setsContext`: `pricing.yaml` carrying
`saasName`, `version`, `features` and `plans`. -/
theorem chatUpload_heuristic_setsContext_witness :
    getPricingContextInfo (chatAttachFile emptySession
        { originalname := "pricing.yaml", content := yamlFullMarkers, size := 99 }
        "f1" 0)
      = { hasContext := true, fileName := some "pricing.yaml",
          contentLength := yamlFullMarkers.length } :=
  chatUpload_heuristic_setsContext emptySession
    { originalname := "pricing.yaml", content := yamlFullMarkers, size := 99 }
    "f1" 0 (by decide) (by decide)

/-! ## C1: the message-log shape after one turn -/

/-- Whether a part is a tool-call request. -/
def isToolCallPart : MessagePart → Bool
  | MessagePart.functionCall _ => true
  | _ => false

/-- Whether a message consists of text parts only. -/
def isTextOnly (m : ChatMessage) : Bool :=
  m.parts.all (fun p => match p with
    | MessagePart.text _ => true
    | _ => false)

/-- Stated from the spec's words (§4.2 ordering guarantee), for comparison
with the code: the log ends with the four messages `user`,
`model(tool-call)`, `tool(result)`, `model(final-text)`. -/
def specFourMessageToolTurnPattern (msgs : List ChatMessage) : Bool :=
  match msgs.reverse with
  | final :: toolMsg :: callMsg :: userMsg :: _ =>
      userMsg.role == Role.user
      && (callMsg.role == Role.model && callMsg.parts.any isToolCallPart)
      && toolMsg.role == Role.tool
      && (final.role == Role.model && isTextOnly final)
  | _ => false

/-- C1 (counterexample): after a turn that triggers exactly one tool call,
`sendMessage` has appended only TWO messages — the user message and a single
model message holding the final text part together with the tool-call part;
no `tool` message is written, so the log does not end with the claimed
four-message pattern. -/
theorem sendMessage_toolTurn_shape_cex :
    specFourMessageToolTurnPattern
        (sendMessageTurn emptySession "Summarize this file" none
          (ModelTurn.toolCall sampleCall "Here is the summary.") 0).messages = false
    ∧ (sendMessageTurn emptySession "Summarize this file" none
          (ModelTurn.toolCall sampleCall "Here is the summary.") 0).messages.length = 2 := by
  constructor
  · decide
  · decide

/-- C1 (amended): after a turn with no tool call and non-empty model text the
log ends with `user, model(text)`; after a turn that triggers exactly one
tool call (with non-empty final text) it ends with the TWO messages `user`,
then one `model` message whose parts are the final text followed by the
tool-call request — the tool result is never appended to the session log. -/
theorem sendMessage_turn_log_shape (session : ChatSession) (message : String)
    (uploadedCtx : Option (String × String)) (now : Int) :
    (∀ t : String, t ≠ "" →
        (sendMessageTurn session message uploadedCtx (ModelTurn.direct t) now).messages
          = session.messages
            ++ [{ role := Role.user,
                  parts := [MessagePart.text (buildUserMessageText message uploadedCtx)] },
                { role := Role.model, parts := [MessagePart.text t] }])
    ∧ (∀ (fc : FunctionCall) (finalText : String), finalText ≠ "" →
        (sendMessageTurn session message uploadedCtx (ModelTurn.toolCall fc finalText) now).messages
          = session.messages
            ++ [{ role := Role.user,
                  parts := [MessagePart.text (buildUserMessageText message uploadedCtx)] },
                { role := Role.model,
                  parts := [MessagePart.text finalText, MessagePart.functionCall fc] }]) := by
  constructor
  · intro t ht
    have ht' : (t == "") = false := by simpa [beq_eq_false_iff_ne] using ht
    simp [sendMessageTurn, sendMessageCore, generateResponseResult, ht']
  · intro fc finalText hft
    have hft' : (finalText == "") = false := by simpa [beq_eq_false_iff_ne] using hft
    simp [sendMessageTurn, sendMessageCore, generateResponseResult, hft']

/-- Witness for `sendMessage_turn_log_shape`: one direct turn and one
tool-call turn on a fresh session. -/
theorem sendMessage_turn_log_shape_witness :
    (sendMessageTurn emptySession "hello" none (ModelTurn.direct "Hi there") 0).messages
      = emptySession.messages
        ++ [{ role := Role.user,
              parts := [MessagePart.text (buildUserMessageText "hello" none)] },
            { role := Role.model, parts := [MessagePart.text "Hi there"] }]
    ∧ (sendMessageTurn emptySession "summarize" none
          (ModelTurn.toolCall sampleCall "Done.") 0).messages
      = emptySession.messages
        ++ [{ role := Role.user,
              parts := [MessagePart.text (buildUserMessageText "summarize" none)] },
            { role := Role.model,
              parts := [MessagePart.text "Done.", MessagePart.functionCall sampleCall] }] :=
  ⟨(sendMessage_turn_log_shape emptySession "hello" none 0).1 "Hi there" (by decide),
   (sendMessage_turn_log_shape emptySession "summarize" none 0).2 sampleCall "Done." (by decide)⟩

/-! ## C4: idempotence of polling -/

/-- C4 (counterexample): polling a completed transformation twice returns
the status `COMPLETED` both times, but each poll persists a fresh copy of
the output — after the second poll the store holds TWO files for the same
task. -/
theorem transformPoll_duplicates_file_cex :
    (handleGetTransformationTaskStatus sampleEnv sampleState
        { taskId := some "t1" }).2.statusData = some "COMPLETED"
    ∧ (handleGetTransformationTaskStatus sampleEnv
        (handleGetTransformationTaskStatus sampleEnv sampleState
          { taskId := some "t1" }).1
        { taskId := some "t1" }).2.statusData = some "COMPLETED"
    ∧ (handleGetTransformationTaskStatus sampleEnv sampleState
        { taskId := some "t1" }).1.uploads.length = 1
    ∧ (handleGetTransformationTaskStatus sampleEnv
        (handleGetTransformationTaskStatus sampleEnv sampleState
          { taskId := some "t1" }).1
        { taskId := some "t1" }).1.uploads.length = 2 := by
  refine ⟨?_, ?_, ?_, ?_⟩ <;> decide

/-- When the fresh file name is not yet in the store, the save appends
exactly that one entry. -/
theorem saveTransformationResult_uploads (st : OrchState) (tid y u : String)
    (hfresh : st.uploads.any
        (fun p => p.1 == "transformation_" ++ tid ++ "_" ++ freshUuid st.nextUuid ++ ".yaml")
      = false) :
    (saveTransformationResult st tid y u).1.uploads
      = st.uploads
        ++ [("transformation_" ++ tid ++ "_" ++ freshUuid st.nextUuid ++ ".yaml", y)] := by
  cases hp : parseUrlHostname u <;>
    simp [saveTransformationResult, writeFile, hfresh, hp]

/-- C4 (amended): polling `getTransformationTaskStatus` on a task whose
external status stays `COMPLETED` reports the same status on every poll, but
each poll persists one MORE stored copy of the output (under a fresh uuid
file name), so a second poll does create a second copy; polling
`getPricingAnalysisJobStatus` through the dispatcher leaves the
orchestration state unchanged and persists nothing. -/
theorem transformPoll_status_and_persistence (env : OrchestrationEnv) (st : OrchState)
    (files : List SessionFile) (tid y : String) (tr : TransformationResult)
    (havail : env.transformationAvailable = true)
    (htid : tid ≠ "")
    (hstatus : env.getTransformationStatus tid = .ok tr)
    (hcomp : tr.status = "COMPLETED")
    (hy : tr.yamlContent = some y)
    (hy' : y ≠ "")
    (hfresh : st.uploads.any
        (fun p => p.1 == "transformation_" ++ tid ++ "_" ++ freshUuid st.nextUuid ++ ".yaml")
      = false) :
    (handleGetTransformationTaskStatus env st { taskId := some tid }).2.statusData
        = some "COMPLETED"
    ∧ (handleGetTransformationTaskStatus env st { taskId := some tid }).1.uploads.length
        = st.uploads.length + 1
    ∧ (∀ jargs : ToolArgs,
        (handleToolCall env st files
          { name := "getPricingAnalysisJobStatus", arguments := jargs }).1 = st) := by
  have h1 : ¬ (falsyStr (some tid) = true) := by simp [falsyStr, htid]
  have h2 : ¬ ((!env.transformationAvailable) = true) := by simp [havail]
  have hcomp' : (tr.status == "COMPLETED") = true := by simp [hcomp]
  have hy'' : ((tr.yamlContent.getD "") == "") = false := by
    rw [hy]
    simpa [beq_eq_false_iff_ne] using hy'
  have hcond : (tr.status == "COMPLETED" && !((tr.yamlContent.getD "") == "")) = true := by
    simp [hcomp', hy'']
  have hupl := saveTransformationResult_uploads st tid (tr.yamlContent.getD "")
    ((lookupKey st.taskUrlMap tid).getD ("transformation-" ++ tid)) hfresh
  refine ⟨?_, ?_, ?_⟩
  · unfold handleGetTransformationTaskStatus
    rw [if_neg h1, if_neg h2]
    simp only [Option.getD_some, hstatus]
    rw [if_pos hcond]
    split
    · simp [hcomp]
    · simp [hcomp]
  · unfold handleGetTransformationTaskStatus
    rw [if_neg h1, if_neg h2]
    simp only [Option.getD_some, hstatus]
    rw [if_pos hcond]
    split
    · rename_i st1 fileInfo heq
      rw [heq] at hupl
      simp only []
      rw [hupl]
      simp
    · rename_i st1 e heq
      rw [heq] at hupl
      simp only []
      rw [hupl]
      simp
  · intro jargs
    rfl

/-- Witness for `transformPoll_status_and_persistence`: the completed task
`t1` of the sample environment. -/
theorem transformPoll_status_and_persistence_witness :
    (handleGetTransformationTaskStatus sampleEnv sampleState
        { taskId := some "t1" }).2.statusData = some "COMPLETED"
    ∧ (handleGetTransformationTaskStatus sampleEnv sampleState
        { taskId := some "t1" }).1.uploads.length = sampleState.uploads.length + 1
    ∧ (∀ jargs : ToolArgs,
        (handleToolCall sampleEnv sampleState []
          { name := "getPricingAnalysisJobStatus", arguments := jargs }).1 = sampleState) :=
  transformPoll_status_and_persistence sampleEnv sampleState [] "t1"
    "saasName: Example\nplans:\n"
    { status := "COMPLETED", yamlContent := some "saasName: Example\nplans:\n" }
    (by rfl) (by decide) (by rfl) (by rfl) (by rfl) (by decide) (by rfl)

/-! ## C9: the session reaper -/

/-- Two pairs of a key-unique association list with the same key hold the
same value. -/
theorem eq_of_mem_nodupKeys {L : List (String × ChatSession)}
    (h : (L.map Prod.fst).Nodup) {a : String} {x y : ChatSession}
    (hx : (a, x) ∈ L) (hy : (a, y) ∈ L) : x = y := by
  induction L with
  | nil => cases hx
  | cons p t ih =>
      rw [List.map_cons, List.nodup_cons] at h
      rcases List.mem_cons.mp hx with hx1 | hx1 <;> rcases List.mem_cons.mp hy with hy1 | hy1
      · rw [← hx1] at hy1
        exact (Prod.mk.injEq _ _ _ _ ▸ hy1.symm).2
      · exfalso
        apply h.1
        rw [← hx1]
        exact List.mem_map.mpr ⟨(a, y), hy1, rfl⟩
      · exfalso
        apply h.1
        rw [← hy1]
        exact List.mem_map.mpr ⟨(a, x), hx1, rfl⟩
      · exact ih h.2 hx1 hy1

/-- C9 (confirmed): one reaper sweep removes a session exactly when strictly
more than the 24-hour threshold has elapsed since its `lastActivity` — a
session touched an instant before the sweep survives — and the files of
every expired session are all deleted. -/
theorem reaper_correct (now : Int) (sessions : List (String × ChatSession))
    (hnodup : (sessions.map Prod.fst).Nodup) (sid : String) (s : ChatSession)
    (hmem : (sid, s) ∈ sessions) :
    ((sid, s) ∈ (cleanupInactiveSessions now sessions).1
        ↔ now - s.lastActivity ≤ inactivityThresholdMs)
    ∧ (now - s.lastActivity > inactivityThresholdMs →
        ∀ f ∈ s.files, f.path ∈ (cleanupInactiveSessions now sessions).2) := by
  have hkey : sid ∈ (sessions.filter (fun p => sessionExpired now p.2)).map Prod.fst
      ↔ sessionExpired now s = true := by
    constructor
    · intro h
      rcases List.mem_map.mp h with ⟨p, hp, hfst⟩
      rcases List.mem_filter.mp hp with ⟨hpmem, hpexp⟩
      obtain ⟨a, b⟩ := p
      cases hfst
      have hbs : b = s := eq_of_mem_nodupKeys hnodup hpmem hmem
      rw [← hbs]
      exact hpexp
    · intro h
      exact List.mem_map.mpr ⟨(sid, s), List.mem_filter.mpr ⟨hmem, h⟩, rfl⟩
  have hcontains : ((sessions.filter (fun p => sessionExpired now p.2)).map Prod.fst).contains sid
        = true
      ↔ sessionExpired now s = true := by
    rw [show ((sessions.filter (fun p => sessionExpired now p.2)).map Prod.fst).contains sid
          = List.elem sid ((sessions.filter (fun p => sessionExpired now p.2)).map Prod.fst)
        from rfl]
    rw [List.elem_iff]
    exact hkey
  constructor
  · simp only [cleanupInactiveSessions, List.mem_filter, Bool.not_eq_true']
    constructor
    · rintro ⟨-, hnc⟩
      by_contra hgt
      rw [not_le] at hgt
      have hexp : sessionExpired now s = true := by
        simpa [sessionExpired, decide_eq_true_iff] using hgt
      rw [hcontains.mpr hexp] at hnc
      cases hnc
    · intro hle
      refine ⟨hmem, ?_⟩
      cases hc : ((sessions.filter (fun p => sessionExpired now p.2)).map Prod.fst).contains sid
      · rfl
      · have hexp := hcontains.mp hc
        have hgt : now - s.lastActivity > inactivityThresholdMs := by
          simpa [sessionExpired, decide_eq_true_iff] using hexp
        exact absurd hgt (not_lt.mpr hle)
  · intro hexp f hf
    have hexp' : sessionExpired now s = true := by
      simp [sessionExpired, decide_eq_true_iff, hexp]
    simp only [cleanupInactiveSessions]
    exact List.mem_flatMap.mpr
      ⟨(sid, s), List.mem_filter.mpr ⟨hmem, hexp'⟩, List.mem_map.mpr ⟨f, hf, rfl⟩⟩

/-- A file owned by the stale session of the reaper fixture. -/
def staleFile : SessionFile :=
  { id := "f1", originalName := "a.yaml", filename := "f1",
    path := "uploads/f1", size := 1, status := "uploaded" }

/-- A session last touched at epoch 0, owning one file. -/
def staleSession : ChatSession :=
  { emptySession with
      id := "stale"
      lastActivity := 0
      files := [staleFile] }

/-- A session touched shortly before the sweep at time 100000000. -/
def freshSession : ChatSession :=
  { emptySession with
      id := "fresh"
      lastActivity := 90000000 }

/-- The two-session store the reaper witness sweeps. -/
def reaperStore : List (String × ChatSession) :=
  [("stale", staleSession), ("fresh", freshSession)]

/-- Witness for `reaper_correct`: the freshly-touched session of the
two-session store. -/
theorem reaper_correct_witness :
    ((("fresh", freshSession) ∈ (cleanupInactiveSessions 100000000 reaperStore).1
        ↔ (100000000 : Int) - freshSession.lastActivity ≤ inactivityThresholdMs)
    ∧ ((100000000 : Int) - freshSession.lastActivity > inactivityThresholdMs →
        ∀ f ∈ freshSession.files,
          f.path ∈ (cleanupInactiveSessions 100000000 reaperStore).2)) :=
  reaper_correct 100000000 reaperStore (by decide) "fresh" freshSession (by decide)

/-! ## C8: file-id resolution order -/

/-- C8 (confirmed): both file-consuming handlers resolve a file id first
against the session's own files, then against the pool of completed
transformation outputs, and when the id is in neither they return the
failure outcome telling the user to upload or produce the file first. -/
theorem fileId_resolution (env : OrchestrationEnv) (files : List SessionFile)
    (args : ToolArgs) (fid : String)
    (hfid : args.pricingFileId = some fid) (hne : fid ≠ "") :
    ((findSessionFile files fid = none → findSessionFile env.transFiles fid = none →
        handleGetPricingSummary env files args
          = { error := true,
              message := "File with ID " ++ fid ++ " not found in current session or transformation files. Please upload a pricing YAML file or complete a transformation first." })
      ∧ (∀ f, findSessionFile files fid = some f → env.validate f.path = .ok () →
          ∀ s, env.getSummary f.path = .ok s →
            handleGetPricingSummary env files args
              = { error := false, message := "Pricing summary generated successfully",
                  fileName := some f.originalName, fileSource := some "session",
                  payload := some s })
      ∧ (∀ f, findSessionFile files fid = none → findSessionFile env.transFiles fid = some f →
          env.validate f.path = .ok () → ∀ s, env.getSummary f.path = .ok s →
            handleGetPricingSummary env files args
              = { error := false, message := "Pricing summary generated successfully",
                  fileName := some f.originalName, fileSource := some "transformation",
                  payload := some s }))
    ∧ (∀ op solver, args.operation = some op → op ≠ "" →
        args.solver = some solver → solver ≠ "" →
        ((findSessionFile files fid = none → findSessionFile env.transFiles fid = none →
            handleStartPricingAnalysisJob env files args
              = { error := true,
                  message := "File with ID " ++ fid ++ " not found in current session or transformation files. Please upload a pricing YAML file or complete a transformation first." })
          ∧ (∀ f, findSessionFile files fid = some f →
              ["validate", "optimal", "subscriptions", "filter"].contains op = true →
              ∀ j, env.startAnalysisJob f.path op solver = .ok j →
                handleStartPricingAnalysisJob env files args
                  = { error := false,
                      message := "Analysis job started successfully. Job ID: " ++ j,
                      fileName := some f.originalName, fileSource := some "session",
                      payload := some j })
          ∧ (∀ f, findSessionFile files fid = none →
              findSessionFile env.transFiles fid = some f →
              ["validate", "optimal", "subscriptions", "filter"].contains op = true →
              ∀ j, env.startAnalysisJob f.path op solver = .ok j →
                handleStartPricingAnalysisJob env files args
                  = { error := false,
                      message := "Analysis job started successfully. Job ID: " ++ j,
                      fileName := some f.originalName, fileSource := some "transformation",
                      payload := some j }))) := by
  have hne' : (fid == "") = false := by simpa [beq_eq_false_iff_ne] using hne
  refine ⟨⟨?_, ?_, ?_⟩, ?_⟩
  · intro h1 h2
    simp [handleGetPricingSummary, hfid, falsyStr, hne', h1, h2]
  · intro f hf hv s hs
    simp [handleGetPricingSummary, hfid, falsyStr, hne', hf, hv, hs]
  · intro f h1 hf hv s hs
    simp [handleGetPricingSummary, hfid, falsyStr, hne', h1, hf, hv, hs]
  · intro op solver hop hopne hsol hsolne
    have hop' : (op == "") = false := by simpa [beq_eq_false_iff_ne] using hopne
    have hsol' : (solver == "") = false := by simpa [beq_eq_false_iff_ne] using hsolne
    refine ⟨?_, ?_, ?_⟩
    · intro h1 h2
      simp [handleStartPricingAnalysisJob, hfid, hop, hsol, falsyStr, hne', hop', hsol',
        h1, h2]
    · intro f hf hcontains j hj
      have hmem : op = "validate" ∨ op = "optimal" ∨ op = "subscriptions" ∨ op = "filter" := by
        simpa using hcontains
      simp [handleStartPricingAnalysisJob, hfid, hop, hsol, falsyStr, hne', hop', hsol',
        hf, hcontains, hj]
      tauto
    · intro f h1 hf hcontains j hj
      have hmem : op = "validate" ∨ op = "optimal" ∨ op = "subscriptions" ∨ op = "filter" := by
        simpa using hcontains
      simp [handleStartPricingAnalysisJob, hfid, hop, hsol, falsyStr, hne', hop', hsol',
        h1, hf, hcontains, hj]
      tauto

/-- A session-owned file of the resolution witness. -/
def fileA : SessionFile :=
  { id := "fa", originalName := "a.yaml", filename := "fa",
    path := "uploads/fa", size := 1, status := "uploaded" }

/-- A completed transformation output of the resolution witness. -/
def transFileB : SessionFile :=
  { id := "fb", originalName := "transformation_t9_fb.yaml",
    filename := "transformation_t9_fb.yaml",
    path := "uploads/transformation_t9_fb.yaml", size := 2, status := "uploaded" }

/-- The sample environment with one completed transformation output. -/
def resolutionEnv : OrchestrationEnv :=
  { sampleEnv with transFiles := [transFileB] }

/-- Witness for `fileId_resolution`: a session hit, a pool fallback, and a
miss on the concrete fixture. -/
theorem fileId_resolution_witness :
    handleGetPricingSummary resolutionEnv [fileA] { pricingFileId := some "fa" }
        = { error := false, message := "Pricing summary generated successfully",
            fileName := some fileA.originalName, fileSource := some "session",
            payload := some ("summary of " ++ fileA.path) }
    ∧ handleGetPricingSummary resolutionEnv [fileA] { pricingFileId := some "fb" }
        = { error := false, message := "Pricing summary generated successfully",
            fileName := some transFileB.originalName, fileSource := some "transformation",
            payload := some ("summary of " ++ transFileB.path) }
    ∧ handleGetPricingSummary resolutionEnv [fileA] { pricingFileId := some "zz" }
        = { error := true,
            message := "File with ID " ++ "zz" ++ " not found in current session or transformation files. Please upload a pricing YAML file or complete a transformation first." } :=
  ⟨(fileId_resolution resolutionEnv [fileA] { pricingFileId := some "fa" } "fa"
      rfl (by decide)).1.2.1 fileA (by rfl) (by rfl) _ (by rfl),
   (fileId_resolution resolutionEnv [fileA] { pricingFileId := some "fb" } "fb"
      rfl (by decide)).1.2.2 transFileB (by rfl) (by rfl) (by rfl) _ (by rfl),
   (fileId_resolution resolutionEnv [fileA] { pricingFileId := some "zz" } "zz"
      rfl (by decide)).1.1 (by rfl) (by rfl)⟩

end Harvey
